import Mathlib

/-!
Shallow embedding of the shared bucket-list application:
`src/server/database.js` (persistence helpers over SQLite tables) and the
Express route handlers (`src/unnamed/part_000`).  The database is modelled
as an explicit state value threaded through every operation; SQL statements
become list operations; `CURRENT_TIMESTAMP` becomes a monotone counter.
-/

deriving instance DecidableEq for Except

namespace BucketApp

/-! ### JavaScript string primitives used by the routes -/

/-- Whitespace as recognised by JavaScript `String.prototype.trim` (the
characters that actually occur in this application's inputs). -/
def jsWhite (c : Char) : Bool :=
  c = ' ' || c = '\t' || c = '\n' || c = '\r'

/-- Model of JavaScript `s.trim()`: drop whitespace from both ends. -/
def jsTrim (s : String) : String :=
  ⟨((s.data.dropWhile jsWhite).reverse.dropWhile jsWhite).reverse⟩

/-- Model of JavaScript `s.toUpperCase()` restricted to the ASCII inputs the
application handles. -/
def jsToUpper (s : String) : String :=
  ⟨s.data.map Char.toUpper⟩

/-- Model of JavaScript `s.toLowerCase()` restricted to ASCII. -/
def jsToLower (s : String) : String :=
  ⟨s.data.map Char.toLower⟩

/-- JavaScript truthiness of a nullable integer column value: `null` and `0`
are falsy, every other number is truthy. -/
def truthyInt : Option Int → Bool
  | none => false
  | some t => t ≠ 0

/-- JavaScript truthiness of a nullable id value. -/
def truthyNat : Option Nat → Bool
  | none => false
  | some t => t ≠ 0

/-! ### Data model: rows of the four tables created in `database.js` -/

/-- Row of the `users` table. -/
structure User where
  id : Nat
  username : String
  password_hash : String
deriving DecidableEq, Repr

/-- Row of the `bucket_lists` table. -/
structure BucketList where
  id : Nat
  name : String
  share_code : String
  created_by : Nat
  created_at : Nat
deriving DecidableEq, Repr

/-- Row of the `bucket_list_members` table (composite key `(user_id, bucket_list_id)`). -/
structure Membership where
  user_id : Nat
  bucket_list_id : Nat
  joined_at : Nat
deriving DecidableEq, Repr

/-- Row of the `items` table after the start-up column migration adds
`type`, `description`, `parent_item_id`, `counter_value`, `counter_target`. -/
structure Item where
  id : Nat
  bucket_list_id : Nat
  text : String
  itype : String
  description : Option String
  parent_item_id : Option Nat
  is_checked : Bool
  checked_by : Option Nat
  checked_at : Option Nat
  counter_value : Int
  counter_target : Option Int
  created_at : Nat
deriving DecidableEq, Repr

/-- The whole persisted state: the four tables plus the AUTOINCREMENT
counters and a monotone clock standing for `CURRENT_TIMESTAMP`. -/
structure DB where
  users : List User
  bucket_lists : List BucketList
  members : List Membership
  items : List Item
  nextUserId : Nat
  nextListId : Nat
  nextItemId : Nat
  time : Nat
deriving DecidableEq, Repr

/-- The freshly created database: empty tables, AUTOINCREMENT ids start at 1. -/
def DB.init : DB :=
  { users := [], bucket_lists := [], members := [], items := []
    nextUserId := 1, nextListId := 1, nextItemId := 1, time := 0 }

/-! ### `database.js` helpers -/

/-- `createUser`: INSERT INTO users, returning `lastInsertRowid`. -/
def createUser (db : DB) (username passwordHash : String) : DB × Nat :=
  ({ db with
      users := db.users ++ [⟨db.nextUserId, username, passwordHash⟩]
      nextUserId := db.nextUserId + 1
      time := db.time + 1 },
   db.nextUserId)

/-- `getUserByUsername`: SELECT * FROM users WHERE username = ?. -/
def getUserByUsername (db : DB) (username : String) : Option User :=
  db.users.find? (fun u => u.username == username)

/-- `getBucketListByCode`: SELECT * FROM bucket_lists WHERE share_code = ?. -/
def getBucketListByCode (db : DB) (shareCode : String) : Option BucketList :=
  db.bucket_lists.find? (fun bl => bl.share_code == shareCode)

/-- `getBucketListById`: SELECT * FROM bucket_lists WHERE id = ?. -/
def getBucketListById (db : DB) (id : Nat) : Option BucketList :=
  db.bucket_lists.find? (fun bl => bl.id == id)

/-- `addMember`: INSERT OR IGNORE INTO bucket_list_members — inserting an
already present `(user_id, bucket_list_id)` pair is a no-op. -/
def addMember (db : DB) (bucketListId userId : Nat) : DB :=
  if db.members.any (fun m => m.user_id == userId && m.bucket_list_id == bucketListId) then
    db
  else
    { db with
        members := db.members ++ [⟨userId, bucketListId, db.time⟩]
        time := db.time + 1 }

/-- `isMember`: SELECT from bucket_list_members; `better-sqlite3` yields
`undefined` when no row matches, so the helper returns whether a row exists. -/
def isMember (db : DB) (bucketListId userId : Nat) : Bool :=
  (db.members.find? (fun m => m.bucket_list_id == bucketListId && m.user_id == userId)).isSome

/-- `createBucketList`: INSERT the list row, then `addMember(lastInsertRowid,
createdBy)`; returns the new list id (`lastInsertRowid`). -/
def createBucketList (db : DB) (name shareCode : String) (createdBy : Nat) : DB × Nat :=
  let listId := db.nextListId
  let db1 : DB :=
    { db with
        bucket_lists := db.bucket_lists ++ [⟨listId, name, shareCode, createdBy, db.time⟩]
        nextListId := listId + 1
        time := db.time + 1 }
  (addMember db1 listId createdBy, listId)

/-- Options object accepted by `createItem` (defaults as in `database.js`). -/
structure ItemOptions where
  itype : String := "check"
  description : Option String := none
  parentItemId : Option Nat := none
  counterValue : Int := 0
  counterTarget : Option Int := none
deriving DecidableEq, Repr

/-- `createItem`: INSERT INTO items with the JavaScript coercions applied to
the option fields (`description || null`, `parentItemId ? parseInt(...) : null`,
`parseInt(counterValue) || 0`, `counterTarget ? parseInt(...) : null`). -/
def createItem (db : DB) (bucketListId : Nat) (text : String) (opts : ItemOptions) : DB × Nat :=
  let itemId := db.nextItemId
  let item : Item :=
    { id := itemId
      bucket_list_id := bucketListId
      text := text
      itype := opts.itype
      description := match opts.description with
        | some s => if s = "" then none else some s
        | none => none
      parent_item_id := if truthyNat opts.parentItemId then opts.parentItemId else none
      is_checked := false
      checked_by := none
      checked_at := none
      counter_value := opts.counterValue
      counter_target := if truthyInt opts.counterTarget then opts.counterTarget else none
      created_at := db.time }
  ({ db with
      items := db.items ++ [item]
      nextItemId := itemId + 1
      time := db.time + 1 },
   itemId)

/-- `getItem`: SELECT from items WHERE id = ? (the LEFT JOIN only adds the
derived `checked_by_username` display column, which no claim depends on). -/
def getItem (db : DB) (itemId : Nat) : Option Item :=
  db.items.find? (fun i => i.id == itemId)

/-- UPDATE items SET ... WHERE id = ?: rewrite the matching row in place. -/
def updateItemRows (db : DB) (itemId : Nat) (f : Item → Item) : DB :=
  { db with
      items := db.items.map (fun i => if i.id == itemId then f i else i)
      time := db.time + 1 }

/-- `toggleItem`: when checking, record actor and timestamp; when unchecking,
clear both. -/
def toggleItem (db : DB) (itemId userId : Nat) (isChecked : Bool) : DB :=
  if isChecked then
    updateItemRows db itemId (fun i =>
      { i with is_checked := true, checked_by := some userId, checked_at := some db.time })
  else
    updateItemRows db itemId (fun i =>
      { i with is_checked := false, checked_by := none, checked_at := none })

/-- `updateCounter`: read the item, throw if absent or not a counter, then
floor the new value at 0 and, when the stored target is truthy, cap it at the
target. -/
def updateCounter (db : DB) (itemId : Nat) (delta : Int) : Except Unit DB :=
  match getItem db itemId with
  | none => .error ()
  | some item =>
    if item.itype ≠ "counter" then .error ()
    else
      let newValue : Int := max 0 (item.counter_value + delta)
      let target : Option Int := if truthyInt item.counter_target then item.counter_target else none
      let clampedValue : Int := if truthyInt target then min newValue (target.getD 0) else newValue
      .ok (updateItemRows db itemId (fun i => { i with counter_value := clampedValue }))

/-! ### Ordering used by `getItems` -/

/-- Sort key of the ORDER BY clause in `getItems`:
`CASE WHEN parent_item_id IS NULL THEN 0 ELSE 1 END, parent_item_id, created_at`.
Root items share the NULL parent key, encoded as 0 alongside flag 0. -/
def itemKey (i : Item) : Nat × Nat × Nat :=
  ((if i.parent_item_id = none then 0 else 1), i.parent_item_id.getD 0, i.created_at)

/-- Lexicographic comparison of `itemKey`, the order produced by the SQL
ORDER BY of `getItems`. -/
def itemLe (a b : Item) : Prop :=
  (itemKey a).1 < (itemKey b).1 ∨
    ((itemKey a).1 = (itemKey b).1 ∧
      ((itemKey a).2.1 < (itemKey b).2.1 ∨
        ((itemKey a).2.1 = (itemKey b).2.1 ∧ (itemKey a).2.2 ≤ (itemKey b).2.2)))

instance : DecidableRel itemLe := fun a b => by
  unfold itemLe; infer_instance

instance : IsTotal Item itemLe :=
  ⟨fun a b => by unfold itemLe; omega⟩

instance : IsTrans Item itemLe :=
  ⟨fun a b c => by unfold itemLe; omega⟩

/-- `getItems`: SELECT the list's items ordered by the key above. -/
def getItems (db : DB) (bucketListId : Nat) : List Item :=
  (db.items.filter (fun i => i.bucket_list_id == bucketListId)).insertionSort itemLe

/-- Ordering of `getMembers` (ORDER BY joined_at ASC). -/
def memberLe (a b : Membership) : Prop := a.joined_at ≤ b.joined_at

instance : DecidableRel memberLe := fun a b => by
  unfold memberLe; infer_instance

instance : IsTotal Membership memberLe :=
  ⟨fun a b => by unfold memberLe; omega⟩

instance : IsTrans Membership memberLe :=
  ⟨fun a b c => by unfold memberLe; omega⟩

/-- `getMembers`: the list's membership rows joined with users, ordered by
join time ascending. -/
def getMembers (db : DB) (bucketListId : Nat) : List (Nat × String × Nat) :=
  ((db.members.filter (fun m => m.bucket_list_id == bucketListId)).insertionSort memberLe).filterMap
    (fun m => (db.users.find? (fun u => u.id == m.user_id)).map
      (fun u => (u.id, u.username, m.joined_at)))

/-! ### Route handlers (`src/unnamed/part_000`)

Each handler takes the session user id and the request fields, and returns
the resulting database together with either the payload or the error the
route responds with.  Error returns happen before any mutation, so the error
branches return the incoming database unchanged, exactly as in the source. -/

/-- Error kinds the routes respond with, as named by the specification:
`invalidInput` = 400 validation failure, `notFound` = 404, `forbidden` = 403,
`conflict` = 400 "Already a member", `codeGenerationExhausted` = the 500
"Failed to generate unique share code", `serverError` = other 500. -/
inductive ApiError where
  | invalidInput
  | notFound
  | forbidden
  | conflict
  | codeGenerationExhausted
  | serverError
deriving DecidableEq, Repr

/-- Alphabet used by `generateShareCode`. -/
def shareCodeChars : List Char := "ABCDEFGHIJKLMNOPQRSTUVWXYZ0123456789".data

/-- JavaScript `s.charAt(i)`: the one-character substring at `i`, empty when
out of range. -/
def jsCharAt (l : List Char) (i : Nat) : List Char := (l.drop i).take 1

/-- `generateShareCode`: six characters drawn from the 36-symbol alphabet,
one call to the random source per character (`Math.floor(Math.random()*36)`
is modelled as the sampled index stream `rand`). -/
def generateShareCode (rand : Nat → Nat) : String :=
  ⟨((List.range 6).map (fun i => jsCharAt shareCodeChars (rand i))).flatten⟩

/-- Code sampled by the `i`-th call to `generateShareCode` inside the create
route: each call consumes six fresh random indices. -/
def sampledCode (rand : Nat → Nat) (i : Nat) : String :=
  generateShareCode (fun j => rand (6 * i + j))

/-- Retry loop of POST /api/bucket-lists:
`while (getBucketListByCode(shareCode) && attempts < 10) { shareCode = generateShareCode(); attempts++; }`.
Returns the final `(attempts, shareCode)` pair.  The counter `i` indexes the
next code to sample. -/
def codeLoop (db : DB) (rand : Nat → Nat) (i attempts : Nat) (code : String) :
    Nat × String :=
  if (getBucketListByCode db code).isSome ∧ attempts < 10 then
    codeLoop db rand (i + 1) (attempts + 1) (sampledCode rand i)
  else
    (attempts, code)
termination_by 10 - attempts

/-- POST /api/bucket-lists: validate the name, run the share-code retry loop,
fail with a 500 when ten attempts collided, otherwise create the list. -/
def createListRoute (db : DB) (userId : Nat) (name : String) (rand : Nat → Nat) :
    DB × Except ApiError Nat :=
  if jsTrim name = "" then (db, .error .invalidInput)
  else
    let r := codeLoop db rand 1 0 (sampledCode rand 0)
    if r.1 ≥ 10 then (db, .error .codeGenerationExhausted)
    else
      let c := createBucketList db (jsTrim name) r.2 userId
      (c.1, .ok c.2)

/-- POST /api/bucket-lists/join: trim and uppercase the code, look the list
up, reject duplicate membership, otherwise insert the membership. -/
def joinRoute (db : DB) (userId : Nat) (code : String) : DB × Except ApiError Nat :=
  if jsTrim code = "" then (db, .error .invalidInput)
  else
    match getBucketListByCode db (jsToUpper (jsTrim code)) with
    | none => (db, .error .notFound)
    | some bl =>
      if isMember db bl.id userId then (db, .error .conflict)
      else (addMember db bl.id userId, .ok bl.id)

/-- GET /api/bucket-lists/:id: read-only; existence check, then membership
check, then the list with its items and members. -/
def getListRoute (db : DB) (userId bucketListId : Nat) :
    Except ApiError (BucketList × List Item × List (Nat × String × Nat)) :=
  match getBucketListById db bucketListId with
  | none => .error .notFound
  | some bl =>
    if ¬ isMember db bucketListId userId then .error .forbidden
    else .ok (bl, getItems db bucketListId, getMembers db bucketListId)

/-- Request body of POST /api/items.  `bucket_list_id = 0` stands for a
missing or falsy id (`!bucket_list_id` in the source); real list ids are
positive. -/
structure AddItemReq where
  bucket_list_id : Nat
  text : String
  itype : String := "check"
  description : Option String := none
  parent_item_id : Option Nat := none
  counter_target : Option Int := none
deriving DecidableEq, Repr

/-- Item-creation block at the end of POST /api/items: assemble the options
object with the route's own coercions and insert the row. -/
def addItemCreate (db : DB) (req : AddItemReq) : DB × Except ApiError Nat :=
  let opts : ItemOptions :=
    { itype := req.itype
      description := match req.description with
        | some s => if jsTrim s ≠ "" then some (jsTrim s) else none
        | none => none
      parentItemId := if truthyNat req.parent_item_id then req.parent_item_id else none
      counterValue := 0
      counterTarget := if truthyInt req.counter_target then req.counter_target else none }
  let c := createItem db req.bucket_list_id (jsTrim req.text) opts
  (c.1, .ok c.2)

/-- POST /api/items: validation, list existence, membership, parent
validation, then creation. -/
def addItemRoute (db : DB) (userId : Nat) (req : AddItemReq) : DB × Except ApiError Nat :=
  if req.bucket_list_id = 0 ∨ jsTrim req.text = "" then (db, .error .invalidInput)
  else if req.itype ≠ "check" ∧ req.itype ≠ "counter" then (db, .error .invalidInput)
  else
    match getBucketListById db req.bucket_list_id with
    | none => (db, .error .notFound)
    | some _ =>
      if ¬ isMember db req.bucket_list_id userId then (db, .error .forbidden)
      else
        match req.parent_item_id with
        | some p =>
          (match getItem db p with
           | none => (db, .error .notFound)
           | some parentItem =>
             if parentItem.bucket_list_id ≠ req.bucket_list_id then (db, .error .invalidInput)
             else addItemCreate db req)
        | none => addItemCreate db req

/-- PATCH /api/items/:id/toggle: existence, type, membership checks, then
flip `is_checked` from the currently stored value. -/
def toggleRoute (db : DB) (userId itemId : Nat) : DB × Except ApiError Nat :=
  match getItem db itemId with
  | none => (db, .error .notFound)
  | some item =>
    if item.itype ≠ "check" then (db, .error .invalidInput)
    else if ¬ isMember db item.bucket_list_id userId then (db, .error .forbidden)
    else (toggleItem db itemId userId (! item.is_checked), .ok itemId)

/-- POST /api/items/:id/counter: delta present, existence, type, membership
checks, then the clamped counter update (`updateCounter` cannot throw once
the route has verified the item is a counter). -/
def counterRoute (db : DB) (userId itemId : Nat) (delta : Option Int) :
    DB × Except ApiError Nat :=
  match delta with
  | none => (db, .error .invalidInput)
  | some d =>
    match getItem db itemId with
    | none => (db, .error .notFound)
    | some item =>
      if item.itype ≠ "counter" then (db, .error .invalidInput)
      else if ¬ isMember db item.bucket_list_id userId then (db, .error .forbidden)
      else
        match updateCounter db itemId d with
        | .error _ => (db, .error .serverError)
        | .ok db2 => (db2, .ok itemId)

/-- POST /api/register (the part that touches persisted state): validation
and uniqueness check, then user creation. -/
def registerRoute (db : DB) (username password : String) : DB × Except ApiError Nat :=
  if username = "" ∨ password = "" then (db, .error .invalidInput)
  else if username.length < 3 ∨ password.length < 6 then (db, .error .invalidInput)
  else
    match getUserByUsername db username with
    | some _ => (db, .error .conflict)
    | none =>
      let c := createUser db username password
      (c.1, .ok c.2)

/-- States reachable from the fresh database through the mutating routes.
Every step keeps the first component of the route's result, which is the
incoming state unchanged whenever the route responded with an error. -/
inductive Reachable : DB → Prop where
  | init : Reachable DB.init
  | register (db : DB) (username password : String) :
      Reachable db → Reachable (registerRoute db username password).1
  | createList (db : DB) (userId : Nat) (name : String) (rand : Nat → Nat) :
      Reachable db → Reachable (createListRoute db userId name rand).1
  | join (db : DB) (userId : Nat) (code : String) :
      Reachable db → Reachable (joinRoute db userId code).1
  | addItem (db : DB) (userId : Nat) (req : AddItemReq) :
      Reachable db → Reachable (addItemRoute db userId req).1
  | toggle (db : DB) (userId itemId : Nat) :
      Reachable db → Reachable (toggleRoute db userId itemId).1
  | counter (db : DB) (userId itemId : Nat) (delta : Option Int) :
      Reachable db → Reachable (counterRoute db userId itemId delta).1

/-! ### Helper lemmas -/

/-- Membership test characterised as existence of a membership row. -/
theorem isMember_iff (db : DB) (l u : Nat) :
    isMember db l u = true ↔ ∃ m ∈ db.members, m.bucket_list_id = l ∧ m.user_id = u := by
  unfold isMember
  rw [List.find?_isSome]
  constructor
  · rintro ⟨m, hm, hp⟩
    simp only [Bool.and_eq_true, beq_iff_eq] at hp
    exact ⟨m, hm, hp⟩
  · rintro ⟨m, hm, h1, h2⟩
    exact ⟨m, hm, by simp [h1, h2]⟩

theorem addMember_bucket_lists (db : DB) (l u : Nat) :
    (addMember db l u).bucket_lists = db.bucket_lists := by
  unfold addMember; split <;> rfl

theorem addMember_items (db : DB) (l u : Nat) :
    (addMember db l u).items = db.items := by
  unfold addMember; split <;> rfl

theorem addMember_members_sub (db : DB) (l u : Nat) :
    ∀ m ∈ db.members, m ∈ (addMember db l u).members := by
  unfold addMember; split
  · exact fun m hm => hm
  · exact fun m hm => by simp [hm]

/-- Inserting the pair makes the membership test succeed, whether or not the
row was already present. -/
theorem isMember_addMember_self (db : DB) (l u : Nat) :
    isMember (addMember db l u) l u = true := by
  unfold addMember
  split
  · next h =>
    rw [List.any_eq_true] at h
    obtain ⟨m, hm, hp⟩ := h
    simp only [Bool.and_eq_true, beq_iff_eq] at hp
    exact (isMember_iff _ _ _).2 ⟨m, hm, hp.2, hp.1⟩
  · exact (isMember_iff _ _ _).2 ⟨⟨u, l, db.time⟩, by simp, rfl, rfl⟩

/-- Membership rows are never removed, so the test is monotone under
`addMember`. -/
theorem isMember_addMember_mono (db : DB) (l u l' u' : Nat)
    (h : isMember db l u = true) : isMember (addMember db l' u') l u = true := by
  rw [isMember_iff] at h ⊢
  obtain ⟨m, hm, hp⟩ := h
  exact ⟨m, addMember_members_sub db l' u' m hm, hp⟩

/-- Membership only reads the `members` table. -/
theorem isMember_congr (db db' : DB) (hm : db'.members = db.members) (l u : Nat) :
    isMember db' l u = isMember db l u := by
  unfold isMember; rw [hm]

theorem getBucketListByCode_congr (db db' : DB)
    (hb : db'.bucket_lists = db.bucket_lists) (code : String) :
    getBucketListByCode db' code = getBucketListByCode db code := by
  unfold getBucketListByCode; rw [hb]

theorem updateCounter_tables (db : DB) (i : Nat) (d : Int) (db2 : DB)
    (h : updateCounter db i d = .ok db2) :
    db2.members = db.members ∧ db2.bucket_lists = db.bucket_lists := by
  unfold updateCounter at h
  split at h
  · cases h
  · split at h
    · cases h
    · cases h; exact ⟨rfl, rfl⟩

theorem addItemRoute_tables (db : DB) (u : Nat) (req : AddItemReq) :
    (addItemRoute db u req).1.members = db.members ∧
      (addItemRoute db u req).1.bucket_lists = db.bucket_lists := by
  unfold addItemRoute addItemCreate
  repeat' split
  all_goals exact ⟨rfl, rfl⟩

theorem toggleRoute_tables (db : DB) (u i : Nat) :
    (toggleRoute db u i).1.members = db.members ∧
      (toggleRoute db u i).1.bucket_lists = db.bucket_lists := by
  unfold toggleRoute toggleItem updateItemRows
  repeat' split
  all_goals exact ⟨rfl, rfl⟩

theorem counterRoute_tables (db : DB) (u i : Nat) (d : Option Int) :
    (counterRoute db u i d).1.members = db.members ∧
      (counterRoute db u i d).1.bucket_lists = db.bucket_lists := by
  unfold counterRoute
  repeat' split
  all_goals first
    | exact ⟨rfl, rfl⟩
    | (next db2 heq => exact updateCounter_tables db i _ db2 heq)

theorem registerRoute_tables (db : DB) (un pw : String) :
    (registerRoute db un pw).1.members = db.members ∧
      (registerRoute db un pw).1.bucket_lists = db.bucket_lists := by
  unfold registerRoute createUser
  repeat' split
  all_goals exact ⟨rfl, rfl⟩

/-- Invariant of claim C1: every list's creator is a member of the list. -/
def CreatorInv (db : DB) : Prop :=
  ∀ bl ∈ db.bucket_lists, isMember db bl.id bl.created_by = true

theorem creatorInv_of_tables_eq (db db' : DB) (hm : db'.members = db.members)
    (hb : db'.bucket_lists = db.bucket_lists) (h : CreatorInv db) : CreatorInv db' := by
  intro bl hbl
  rw [hb] at hbl
  rw [isMember_congr db db' hm]
  exact h bl hbl

theorem addMember_creatorInv (db : DB) (l u : Nat) (h : CreatorInv db) :
    CreatorInv (addMember db l u) := by
  intro bl hbl
  rw [addMember_bucket_lists] at hbl
  exact isMember_addMember_mono db bl.id bl.created_by l u (h bl hbl)

/-- Creating a list adds the creator's membership in the same step, so the
invariant survives list creation. -/
theorem createBucketList_creatorInv (db : DB) (name code : String) (u : Nat)
    (h : CreatorInv db) : CreatorInv (createBucketList db name code u).1 := by
  unfold createBucketList
  simp only
  set db1 : DB :=
    { db with
        bucket_lists := db.bucket_lists ++ [⟨db.nextListId, name, code, u, db.time⟩]
        nextListId := db.nextListId + 1
        time := db.time + 1 } with hdb1
  intro bl hbl
  rw [addMember_bucket_lists] at hbl
  have hbl' : bl ∈ db.bucket_lists ∨ bl = ⟨db.nextListId, name, code, u, db.time⟩ := by
    simpa [hdb1] using hbl
  rcases hbl' with hold | hnew
  · have h1 : isMember db1 bl.id bl.created_by = true := by
      rw [isMember_congr db db1 rfl]
      exact h bl hold
    exact isMember_addMember_mono db1 bl.id bl.created_by db.nextListId u h1
  · subst hnew
    exact isMember_addMember_self db1 db.nextListId u

theorem createListRoute_cases (db : DB) (u : Nat) (name : String) (rand : Nat → Nat) :
    (createListRoute db u name rand).1 = db ∨
      ∃ code, (createListRoute db u name rand).1 = (createBucketList db (jsTrim name) code u).1 := by
  unfold createListRoute
  split
  · left; rfl
  · dsimp only
    split
    · left; rfl
    · right; exact ⟨_, rfl⟩

theorem joinRoute_cases (db : DB) (u : Nat) (code : String) :
    (joinRoute db u code).1 = db ∨
      ∃ l, (joinRoute db u code).1 = addMember db l u := by
  unfold joinRoute
  repeat' split
  · left; rfl
  · left; rfl
  · left; rfl
  · right; exact ⟨_, rfl⟩

/-- Every reachable state satisfies the creator-membership invariant. -/
theorem reachable_creatorInv (db : DB) (h : Reachable db) : CreatorInv db := by
  induction h with
  | init => intro bl hbl; simp [DB.init] at hbl
  | register db un pw _ ih =>
    exact creatorInv_of_tables_eq db _ (registerRoute_tables db un pw).1
      (registerRoute_tables db un pw).2 ih
  | createList db u name rand _ ih =>
    rcases createListRoute_cases db u name rand with h | ⟨code, h⟩
    · rw [h]; exact ih
    · rw [h]; exact createBucketList_creatorInv db (jsTrim name) code u ih
  | join db u code _ ih =>
    rcases joinRoute_cases db u code with h | ⟨l, h⟩
    · rw [h]; exact ih
    · rw [h]; exact addMember_creatorInv db l u ih
  | addItem db u req _ ih =>
    exact creatorInv_of_tables_eq db _ (addItemRoute_tables db u req).1
      (addItemRoute_tables db u req).2 ih
  | toggle db u i _ ih =>
    exact creatorInv_of_tables_eq db _ (toggleRoute_tables db u i).1
      (toggleRoute_tables db u i).2 ih
  | counter db u i d _ ih =>
    exact creatorInv_of_tables_eq db _ (counterRoute_tables db u i d).1
      (counterRoute_tables db u i d).2 ih

theorem createListRoute_ok_isMember (db : DB) (u : Nat) (name : String)
    (rand : Nat → Nat) (db' : DB) (listId : Nat)
    (h : createListRoute db u name rand = (db', Except.ok listId)) :
    isMember db' listId u = true := by
  unfold createListRoute at h
  split at h
  · simp at h
  · dsimp only at h
    split at h
    · simp at h
    · simp only [Prod.mk.injEq, Except.ok.injEq] at h
      obtain ⟨hdb, hid⟩ := h
      subst hdb; subst hid
      unfold createBucketList
      dsimp only
      exact isMember_addMember_self _ _ _

/-! ### Claim theorems -/

/-- Claim C1: for every successful `createList(name, creatorId)` call the
creator is a member of the new list immediately after creation, and across
every reachable persisted state no list exists without its creator as a
member — the list-row insert and the creator-membership insert act as one
unit at the granularity of the request. -/
theorem creator_membership_invariant :
    (∀ db, Reachable db → ∀ bl ∈ db.bucket_lists, isMember db bl.id bl.created_by = true) ∧
      (∀ db userId name rand db' listId,
        createListRoute db userId name rand = (db', Except.ok listId) →
        isMember db' listId userId = true) :=
  ⟨fun db h => reachable_creatorInv db h,
   fun db userId name rand db' listId h =>
     createListRoute_ok_isMember db userId name rand db' listId h⟩

/-- Witness for C1: the invariant holds at the initial state, and a concrete
list creation on the fresh database leaves its creator (user 1) a member of
the new list (id 1). -/
theorem creator_membership_invariant_witness :
    (∀ bl ∈ DB.init.bucket_lists, isMember DB.init bl.id bl.created_by = true) ∧
      isMember (createListRoute DB.init 1 "Trip" (fun _ => 0)).1 1 1 = true := by
  constructor
  · exact creator_membership_invariant.1 DB.init Reachable.init
  · refine creator_membership_invariant.2 DB.init 1 "Trip" (fun _ => 0)
      (createListRoute DB.init 1 "Trip" (fun _ => 0)).1 1 (Prod.ext rfl ?_)
    rw [createListRoute]
    rw [codeLoop]
    simp [sampledCode, generateShareCode, jsCharAt, shareCodeChars, getBucketListByCode,
      DB.init, createBucketList, jsTrim, jsWhite]

/-- Rewriting the row with a given id commutes with looking that id up, when
the rewrite keeps the id. -/
theorem find?_map_update (itemId : Nat) (f : Item → Item)
    (hf : ∀ x, (f x).id = x.id) (l : List Item) :
    (l.map (fun i => if i.id == itemId then f i else i)).find? (fun i => i.id == itemId) =
      (l.find? (fun i => i.id == itemId)).map f := by
  induction l with
  | nil => rfl
  | cons a l ih =>
    by_cases h : (a.id == itemId) = true
    · have hfa : ((f a).id == itemId) = true := by rw [hf]; exact h
      rw [List.map_cons, if_pos h,
        List.find?_cons_of_pos (p := fun (i : Item) => i.id == itemId) _ hfa,
        List.find?_cons_of_pos (p := fun (i : Item) => i.id == itemId) _ h,
        Option.map_some']
    · rw [List.map_cons, if_neg h,
        List.find?_cons_of_neg (p := fun (i : Item) => i.id == itemId) _ h,
        List.find?_cons_of_neg (p := fun (i : Item) => i.id == itemId) _ h,
        ih]

theorem getItem_updateItemRows (db : DB) (itemId : Nat) (f : Item → Item)
    (hf : ∀ x, (f x).id = x.id) :
    getItem (updateItemRows db itemId f) itemId = (getItem db itemId).map f := by
  unfold getItem updateItemRows
  exact find?_map_update itemId f hf db.items

/-- Clamp exactly as the specification words it:
`clamp(currentValue + delta, 0, target_or_infinity)`. -/
def clampSpec (v d : Int) (target : Option Int) : Int :=
  match target with
  | some t => max 0 (min (v + d) t)
  | none => max 0 (v + d)

/-- The value `updateCounter` writes back for the item it read. -/
def clampedValueOf (item : Item) (delta : Int) : Int :=
  let newValue : Int := max 0 (item.counter_value + delta)
  let target : Option Int := if truthyInt item.counter_target then item.counter_target else none
  if truthyInt target then min newValue (target.getD 0) else newValue

theorem updateCounter_ok (db : DB) (itemId : Nat) (delta : Int) (item : Item)
    (hit : getItem db itemId = some item) (hty : item.itype = "counter") :
    updateCounter db itemId delta =
      Except.ok (updateItemRows db itemId
        (fun i => { i with counter_value := clampedValueOf item delta })) := by
  unfold updateCounter clampedValueOf
  rw [hit]
  simp [hty]

theorem clampedValueOf_eq_clampSpec (item : Item) (delta : Int)
    (htar : ∀ t, item.counter_target = some t → 0 < t) :
    clampedValueOf item delta = clampSpec item.counter_value delta item.counter_target := by
  unfold clampedValueOf
  cases h : item.counter_target with
  | none => simp only [h, clampSpec, truthyInt, if_false, Bool.false_eq_true]
  | some t =>
    have ht : 0 < t := htar t h
    have htr : truthyInt (some t) = true := by
      simp only [truthyInt, decide_eq_true_eq]; omega
    simp only [htr, if_true, Option.getD_some, clampSpec]
    omega

theorem clampSpec_nonneg (v d : Int) (target : Option Int)
    (htar : ∀ t, target = some t → 0 < t) : 0 ≤ clampSpec v d target := by
  cases h : target with
  | none => simp only [clampSpec]; omega
  | some t => have := htar t h; simp only [clampSpec]; omega

theorem clampSpec_le_target (v d t : Int) (ht : 0 < t) :
    clampSpec v d (some t) ≤ t := by
  simp only [clampSpec]; omega

/-- Claim C2 (amended): for every counter item whose stored `counter_target`
is unset or positive, `updateCounter` stores
`clamp(currentValue + delta, 0, target_or_infinity)`; the result is never
negative and never exceeds a set target.  (A negative stored target — which
item creation never validates against — instead makes the code return the
target itself, a negative value; see the counterexample.) -/
theorem updateCounter_clamped (db : DB) (itemId : Nat) (delta : Int) (item : Item)
    (hit : getItem db itemId = some item)
    (hty : item.itype = "counter")
    (htar : ∀ t, item.counter_target = some t → 0 < t) :
    ∃ db', updateCounter db itemId delta = Except.ok db' ∧
      getItem db' itemId =
        some { item with counter_value := clampSpec item.counter_value delta item.counter_target } ∧
      0 ≤ clampSpec item.counter_value delta item.counter_target ∧
      ∀ t, item.counter_target = some t →
        clampSpec item.counter_value delta item.counter_target ≤ t := by
  refine ⟨_, updateCounter_ok db itemId delta item hit hty, ?_, ?_, ?_⟩
  · have hgi := getItem_updateItemRows db itemId
      (fun i => { i with counter_value := clampedValueOf item delta }) (fun x => rfl)
    rw [hgi, hit, Option.map_some', clampedValueOf_eq_clampSpec item delta htar]
  · exact clampSpec_nonneg _ _ _ htar
  · intro t ht
    rw [ht]
    exact clampSpec_le_target _ _ _ (htar t ht)

/-- Counter item with value 2 and no target, and counter item with value 4
and target 5, as in the specification's examples. -/
def counterItemA : Item :=
  { id := 1, bucket_list_id := 1, text := "run", itype := "counter"
    description := none, parent_item_id := none, is_checked := false
    checked_by := none, checked_at := none, counter_value := 2
    counter_target := none, created_at := 0 }

def counterItemB : Item :=
  { id := 2, bucket_list_id := 1, text := "read", itype := "counter"
    description := none, parent_item_id := none, is_checked := false
    checked_by := none, checked_at := none, counter_value := 4
    counter_target := some 5, created_at := 1 }

def dbCounterEx : DB :=
  { users := [⟨1, "alice", "h"⟩]
    bucket_lists := [⟨1, "Trip", "AAAAAA", 1, 0⟩]
    members := [⟨1, 1, 0⟩]
    items := [counterItemA, counterItemB]
    nextUserId := 2, nextListId := 2, nextItemId := 3, time := 2 }

/-- Witness for C2: the specification's own examples, run through the
theorem — value 2 with delta −5 lands on 0, and value 4 with target 5 and
delta +10 lands on 5. -/
theorem updateCounter_clamped_witness :
    (∃ db', updateCounter dbCounterEx 1 (-5) = Except.ok db' ∧
      getItem db' 1 = some { counterItemA with
        counter_value := clampSpec counterItemA.counter_value (-5) counterItemA.counter_target } ∧
      0 ≤ clampSpec counterItemA.counter_value (-5) counterItemA.counter_target ∧
      ∀ t, counterItemA.counter_target = some t →
        clampSpec counterItemA.counter_value (-5) counterItemA.counter_target ≤ t) ∧
    (∃ db', updateCounter dbCounterEx 2 10 = Except.ok db' ∧
      getItem db' 2 = some { counterItemB with
        counter_value := clampSpec counterItemB.counter_value 10 counterItemB.counter_target } ∧
      0 ≤ clampSpec counterItemB.counter_value 10 counterItemB.counter_target ∧
      ∀ t, counterItemB.counter_target = some t →
        clampSpec counterItemB.counter_value 10 counterItemB.counter_target ≤ t) ∧
    clampSpec counterItemA.counter_value (-5) counterItemA.counter_target = 0 ∧
    clampSpec counterItemB.counter_value 10 counterItemB.counter_target = 5 := by
  refine ⟨?_, ?_, by decide, by decide⟩
  · exact updateCounter_clamped dbCounterEx 1 (-5) counterItemA rfl rfl
      (fun t ht => by simp [counterItemA] at ht)
  · exact updateCounter_clamped dbCounterEx 2 10 counterItemB rfl rfl
      (fun t ht => by simp [counterItemB] at ht; omega)

/-- Counter item carrying a negative stored target, creatable through the
API because `counter_target` is never range-checked. -/
def dbNegTarget : DB :=
  { users := [⟨1, "alice", "h"⟩]
    bucket_lists := [⟨1, "Trip", "AAAAAA", 1, 0⟩]
    members := [⟨1, 1, 0⟩]
    items := [{ id := 1, bucket_list_id := 1, text := "x", itype := "counter"
                description := none, parent_item_id := none, is_checked := false
                checked_by := none, checked_at := none, counter_value := 2
                counter_target := some (-1), created_at := 0 }]
    nextUserId := 2, nextListId := 2, nextItemId := 2, time := 1 }

/-- Stored counter value after an `updateCounter` result, `none` when the
call threw or the item is gone. -/
def counterResultValue (r : Except Unit DB) (itemId : Nat) : Option Int :=
  match r with
  | .ok db' => (getItem db' itemId).map Item.counter_value
  | .error _ => none

/-- Counterexample to C2 as stated: on a counter item with stored target −1
and value 2, a delta of −5 stores −1 — the claimed example input yields a
negative value instead of 0. -/
theorem updateCounter_negative_cex :
    counterResultValue (updateCounter dbNegTarget 1 (-5)) 1 = some (-1) ∧
      (-1 : Int) < 0 := by decide

/-- Claim C10: a `counterTarget` supplied as 0 to item creation is stored as
null, and `updateCounter` applies no ceiling when the stored target is null
or 0 — the new value is exactly `max 0 (value + delta)`, unbounded above. -/
theorem counter_target_zero_unbounded :
    (∀ db listId text opts, opts.counterTarget = some 0 →
      ∃ it, (createItem db listId text opts).1.items = db.items ++ [it] ∧
        it.counter_target = none) ∧
    (∀ db itemId delta item, getItem db itemId = some item → item.itype = "counter" →
      (item.counter_target = none ∨ item.counter_target = some 0) →
      ∃ db', updateCounter db itemId delta = Except.ok db' ∧
        getItem db' itemId =
          some { item with counter_value := max 0 (item.counter_value + delta) }) := by
  constructor
  · intro db listId text opts h
    refine ⟨_, rfl, ?_⟩
    simp [createItem, h, truthyInt]
  · intro db itemId delta item hit hty htar
    refine ⟨_, updateCounter_ok db itemId delta item hit hty, ?_⟩
    have hgi := getItem_updateItemRows db itemId
      (fun i => { i with counter_value := clampedValueOf item delta }) (fun x => rfl)
    rw [hgi, hit, Option.map_some']
    have hclamp : clampedValueOf item delta = max 0 (item.counter_value + delta) := by
      unfold clampedValueOf
      rcases htar with h | h <;> simp [h, truthyInt]
    rw [hclamp]

/-- Item whose stored `counter_target` is the integer 0. -/
def targetZeroItem : Item :=
  { id := 1, bucket_list_id := 1, text := "x", itype := "counter"
    description := none, parent_item_id := none, is_checked := false
    checked_by := none, checked_at := none, counter_value := 7
    counter_target := some 0, created_at := 0 }

def dbTargetZero : DB :=
  { users := [⟨1, "alice", "h"⟩]
    bucket_lists := [⟨1, "Trip", "AAAAAA", 1, 0⟩]
    members := [⟨1, 1, 0⟩]
    items := [targetZeroItem]
    nextUserId := 2, nextListId := 2, nextItemId := 2, time := 1 }

/-- Witness for C10: creating an item with target 0 stores null, and a
stored target of 0 lets the value grow past 0 (7 + 5 = 12). -/
theorem counter_target_zero_unbounded_witness :
    (∃ it, (createItem DB.init 1 "w" { counterTarget := some 0 }).1.items =
        DB.init.items ++ [it] ∧ it.counter_target = none) ∧
    (∃ db', updateCounter dbTargetZero 1 5 = Except.ok db' ∧
      getItem db' 1 = some { targetZeroItem with
        counter_value := max 0 (targetZeroItem.counter_value + 5) }) ∧
    max 0 (targetZeroItem.counter_value + 5) = 12 := by
  refine ⟨?_, ?_, by decide⟩
  · exact counter_target_zero_unbounded.1 DB.init 1 "w" { counterTarget := some 0 } rfl
  · exact counter_target_zero_unbounded.2 dbTargetZero 1 5 targetZeroItem rfl rfl
      (Or.inr rfl)

theorem toggleItem_members (db : DB) (itemId u : Nat) (b : Bool) :
    (toggleItem db itemId u b).members = db.members := by
  unfold toggleItem updateItemRows; split <;> rfl

theorem toggleRoute_ok (db : DB) (u itemId : Nat) (item : Item)
    (hit : getItem db itemId = some item) (hty : item.itype = "check")
    (hm : isMember db item.bucket_list_id u = true) :
    toggleRoute db u itemId = (toggleItem db itemId u (!item.is_checked), Except.ok itemId) := by
  unfold toggleRoute
  rw [hit]
  simp [hty, hm]

theorem getItem_toggleItem_true (db : DB) (itemId u : Nat) (item : Item)
    (hit : getItem db itemId = some item) :
    getItem (toggleItem db itemId u true) itemId =
      some { item with is_checked := true, checked_by := some u, checked_at := some db.time } := by
  unfold toggleItem
  rw [if_pos rfl]
  have hgi := getItem_updateItemRows db itemId
    (fun i => { i with is_checked := true, checked_by := some u, checked_at := some db.time })
    (fun x => rfl)
  rw [hgi, hit]; rfl

theorem getItem_toggleItem_false (db : DB) (itemId u : Nat) (item : Item)
    (hit : getItem db itemId = some item) :
    getItem (toggleItem db itemId u false) itemId =
      some { item with is_checked := false, checked_by := none, checked_at := none } := by
  unfold toggleItem
  rw [if_neg (by simp)]
  have hgi := getItem_updateItemRows db itemId
    (fun i => { i with is_checked := false, checked_by := none, checked_at := none })
    (fun x => rfl)
  rw [hgi, hit]; rfl

/-- Claim C3 (amended): `toggleRoute` flips `is_checked` from the stored
value; a transition to checked records the actor and the current time, a
transition to unchecked clears both.  Toggling twice therefore restores the
original `is_checked`; when the item started unchecked the second toggle
leaves `checked_by`/`checked_at` null, but when it started checked the
second toggle records the second actor and a fresh timestamp instead of
null (see the counterexample for the claim's unconditional clearing). -/
theorem toggle_semantics (db : DB) (u1 u2 itemId : Nat) (item : Item)
    (hit : getItem db itemId = some item)
    (hty : item.itype = "check")
    (hm1 : isMember db item.bucket_list_id u1 = true)
    (hm2 : isMember db item.bucket_list_id u2 = true) :
    ∃ db1 item1 db2 item2,
      toggleRoute db u1 itemId = (db1, Except.ok itemId) ∧
      getItem db1 itemId = some item1 ∧
      item1.is_checked = !item.is_checked ∧
      (item.is_checked = false → item1.checked_by = some u1 ∧ item1.checked_at = some db.time) ∧
      (item.is_checked = true → item1.checked_by = none ∧ item1.checked_at = none) ∧
      toggleRoute db1 u2 itemId = (db2, Except.ok itemId) ∧
      getItem db2 itemId = some item2 ∧
      item2.is_checked = item.is_checked ∧
      (item.is_checked = false → item2.checked_by = none ∧ item2.checked_at = none) ∧
      (item.is_checked = true → item2.checked_by = some u2 ∧ item2.checked_at = some db1.time) := by
  cases hc : item.is_checked with
  | false =>
    have h1 : toggleRoute db u1 itemId = (toggleItem db itemId u1 true, Except.ok itemId) := by
      have h := toggleRoute_ok db u1 itemId item hit hty hm1
      rw [hc] at h
      exact h
    set db1 := toggleItem db itemId u1 true with hdb1
    set item1 : Item :=
      { item with is_checked := true, checked_by := some u1, checked_at := some db.time }
      with hitem1
    have hit1 : getItem db1 itemId = some item1 := getItem_toggleItem_true db itemId u1 item hit
    have hm2' : isMember db1 item1.bucket_list_id u2 = true := by
      rw [isMember_congr db db1 (toggleItem_members db itemId u1 true)]
      exact hm2
    have h2 : toggleRoute db1 u2 itemId = (toggleItem db1 itemId u2 false, Except.ok itemId) :=
      toggleRoute_ok db1 u2 itemId item1 hit1 hty hm2'
    refine ⟨db1, item1, toggleItem db1 itemId u2 false,
      { item1 with is_checked := false, checked_by := none, checked_at := none },
      h1, hit1, ?_, fun _ => ⟨rfl, rfl⟩, ?_,
      h2, getItem_toggleItem_false db1 itemId u2 item1 hit1, ?_,
      fun _ => ⟨rfl, rfl⟩, ?_⟩
    · rfl
    · intro h; cases h
    · rfl
    · intro h; cases h
  | true =>
    have h1 : toggleRoute db u1 itemId = (toggleItem db itemId u1 false, Except.ok itemId) := by
      have h := toggleRoute_ok db u1 itemId item hit hty hm1
      rw [hc] at h
      exact h
    set db1 := toggleItem db itemId u1 false with hdb1
    set item1 : Item :=
      { item with is_checked := false, checked_by := none, checked_at := none }
      with hitem1
    have hit1 : getItem db1 itemId = some item1 := getItem_toggleItem_false db itemId u1 item hit
    have hm2' : isMember db1 item1.bucket_list_id u2 = true := by
      rw [isMember_congr db db1 (toggleItem_members db itemId u1 false)]
      exact hm2
    have h2 : toggleRoute db1 u2 itemId = (toggleItem db1 itemId u2 true, Except.ok itemId) :=
      toggleRoute_ok db1 u2 itemId item1 hit1 hty hm2'
    refine ⟨db1, item1, toggleItem db1 itemId u2 true,
      { item1 with is_checked := true, checked_by := some u2, checked_at := some db1.time },
      h1, hit1, ?_, ?_, fun _ => ⟨rfl, rfl⟩,
      h2, getItem_toggleItem_true db1 itemId u2 item1 hit1, ?_,
      ?_, fun _ => ⟨rfl, rfl⟩⟩
    · rfl
    · intro h; cases h
    · rfl
    · intro h; cases h

/-- Checkbox item that is already checked (by user 2) before the toggles. -/
def checkedItem : Item :=
  { id := 1, bucket_list_id := 1, text := "t", itype := "check"
    description := none, parent_item_id := none, is_checked := true
    checked_by := some 2, checked_at := some 0, counter_value := 0
    counter_target := none, created_at := 0 }

def dbChecked : DB :=
  { users := [⟨1, "alice", "h"⟩, ⟨2, "bob", "h"⟩]
    bucket_lists := [⟨1, "Trip", "AAAAAA", 1, 0⟩]
    members := [⟨1, 1, 0⟩, ⟨2, 1, 0⟩]
    items := [checkedItem]
    nextUserId := 3, nextListId := 2, nextItemId := 2, time := 1 }

/-- Counterexample to C3 as stated: toggling an initially *checked* item
twice restores `is_checked = true` but leaves `checked_by = some 1` (the
second toggler) and a non-null `checked_at`, not the claimed nulls. -/
theorem toggle_twice_cex :
    (getItem dbChecked 1).map Item.is_checked = some true ∧
    (toggleRoute dbChecked 1 1).2 = Except.ok 1 ∧
    (toggleRoute (toggleRoute dbChecked 1 1).1 1 1).2 = Except.ok 1 ∧
    (getItem (toggleRoute (toggleRoute dbChecked 1 1).1 1 1).1 1).map Item.is_checked =
      some true ∧
    (getItem (toggleRoute (toggleRoute dbChecked 1 1).1 1 1).1 1).map Item.checked_by =
      some (some 1) ∧
    (getItem (toggleRoute (toggleRoute dbChecked 1 1).1 1 1).1 1).map Item.checked_at ≠
      some none := by decide

/-- Checkbox item that starts unchecked, in a two-member list. -/
def uncheckedItem : Item :=
  { id := 1, bucket_list_id := 1, text := "t", itype := "check"
    description := none, parent_item_id := none, is_checked := false
    checked_by := none, checked_at := none, counter_value := 0
    counter_target := none, created_at := 0 }

def dbUnchecked : DB :=
  { users := [⟨1, "alice", "h"⟩, ⟨2, "bob", "h"⟩]
    bucket_lists := [⟨1, "Trip", "AAAAAA", 1, 0⟩]
    members := [⟨1, 1, 0⟩, ⟨2, 1, 0⟩]
    items := [uncheckedItem]
    nextUserId := 3, nextListId := 2, nextItemId := 2, time := 1 }

/-- Witness for C3: user 1 checks the unchecked item (recording themselves
and the time), user 2 unchecks it, restoring `is_checked = false` with
`checked_by`/`checked_at` cleared. -/
theorem toggle_semantics_witness :
    ∃ db1 item1 db2 item2,
      toggleRoute dbUnchecked 1 1 = (db1, Except.ok 1) ∧
      getItem db1 1 = some item1 ∧
      item1.is_checked = !uncheckedItem.is_checked ∧
      (uncheckedItem.is_checked = false →
        item1.checked_by = some 1 ∧ item1.checked_at = some dbUnchecked.time) ∧
      (uncheckedItem.is_checked = true → item1.checked_by = none ∧ item1.checked_at = none) ∧
      toggleRoute db1 2 1 = (db2, Except.ok 1) ∧
      getItem db2 1 = some item2 ∧
      item2.is_checked = uncheckedItem.is_checked ∧
      (uncheckedItem.is_checked = false → item2.checked_by = none ∧ item2.checked_at = none) ∧
      (uncheckedItem.is_checked = true →
        item2.checked_by = some 2 ∧ item2.checked_at = some db1.time) :=
  toggle_semantics dbUnchecked 1 2 1 uncheckedItem rfl rfl rfl rfl

theorem getListRoute_forbidden (db : DB) (u listId : Nat) (bl : BucketList)
    (hbl : getBucketListById db listId = some bl)
    (hm : isMember db listId u = false) :
    getListRoute db u listId = Except.error ApiError.forbidden := by
  unfold getListRoute
  rw [hbl]
  simp [hm]

theorem addItemRoute_forbidden (db : DB) (u : Nat) (req : AddItemReq) (bl : BucketList)
    (h0 : req.bucket_list_id ≠ 0) (ht : jsTrim req.text ≠ "")
    (hty : req.itype = "check" ∨ req.itype = "counter")
    (hbl : getBucketListById db req.bucket_list_id = some bl)
    (hm : isMember db req.bucket_list_id u = false) :
    addItemRoute db u req = (db, Except.error ApiError.forbidden) := by
  unfold addItemRoute
  have hA : ¬(req.bucket_list_id = 0 ∨ jsTrim req.text = "") := by
    push_neg; exact ⟨h0, ht⟩
  have hB : ¬(req.itype ≠ "check" ∧ req.itype ≠ "counter") := by
    rcases hty with h | h <;> simp [h]
  rw [if_neg hA, if_neg hB, hbl]
  simp [hm]

theorem toggleRoute_forbidden (db : DB) (u itemId : Nat) (item : Item)
    (hit : getItem db itemId = some item) (hty : item.itype = "check")
    (hm : isMember db item.bucket_list_id u = false) :
    toggleRoute db u itemId = (db, Except.error ApiError.forbidden) := by
  unfold toggleRoute
  rw [hit]
  simp [hty, hm]

theorem counterRoute_forbidden (db : DB) (u itemId : Nat) (item : Item) (d : Int)
    (hit : getItem db itemId = some item) (hty : item.itype = "counter")
    (hm : isMember db item.bucket_list_id u = false) :
    counterRoute db u itemId (some d) = (db, Except.error ApiError.forbidden) := by
  unfold counterRoute
  rw [hit]
  simp [hty, hm]

/-- Claim C4: each list- or item-scoped operation — reading a list with its
items and members, adding an item, toggling a checkbox, updating a counter —
checks membership after resolving the target and before mutating anything,
so an authenticated non-member of an existing list gets `Forbidden` and the
persisted state is returned unchanged. -/
theorem membership_guard :
    (∀ db u listId bl, getBucketListById db listId = some bl →
      isMember db listId u = false →
      getListRoute db u listId = Except.error ApiError.forbidden) ∧
    (∀ db u req bl, req.bucket_list_id ≠ 0 → jsTrim req.text ≠ "" →
      (req.itype = "check" ∨ req.itype = "counter") →
      getBucketListById db req.bucket_list_id = some bl →
      isMember db req.bucket_list_id u = false →
      addItemRoute db u req = (db, Except.error ApiError.forbidden)) ∧
    (∀ db u itemId item, getItem db itemId = some item → item.itype = "check" →
      isMember db item.bucket_list_id u = false →
      toggleRoute db u itemId = (db, Except.error ApiError.forbidden)) ∧
    (∀ db u itemId item d, getItem db itemId = some item → item.itype = "counter" →
      isMember db item.bucket_list_id u = false →
      counterRoute db u itemId (some d) = (db, Except.error ApiError.forbidden)) :=
  ⟨fun db u listId bl hbl hm => getListRoute_forbidden db u listId bl hbl hm,
   fun db u req bl h0 ht hty hbl hm => addItemRoute_forbidden db u req bl h0 ht hty hbl hm,
   fun db u itemId item hit hty hm => toggleRoute_forbidden db u itemId item hit hty hm,
   fun db u itemId item d hit hty hm => counterRoute_forbidden db u itemId item d hit hty hm⟩

/-- List 1 owned by user 1 with a checkbox item (id 1) and a counter item
(id 2); user 2 exists but is not a member. -/
def guardCheckItem : Item :=
  { id := 1, bucket_list_id := 1, text := "t", itype := "check"
    description := none, parent_item_id := none, is_checked := false
    checked_by := none, checked_at := none, counter_value := 0
    counter_target := none, created_at := 0 }

def guardCounterItem : Item :=
  { id := 2, bucket_list_id := 1, text := "c", itype := "counter"
    description := none, parent_item_id := none, is_checked := false
    checked_by := none, checked_at := none, counter_value := 0
    counter_target := none, created_at := 0 }

def dbGuard : DB :=
  { users := [⟨1, "alice", "h"⟩, ⟨2, "bob", "h"⟩]
    bucket_lists := [⟨1, "Trip", "AAAAAA", 1, 0⟩]
    members := [⟨1, 1, 0⟩]
    items := [guardCheckItem, guardCounterItem]
    nextUserId := 3, nextListId := 2, nextItemId := 3, time := 1 }

/-- Witness for C4: non-member user 2 is refused by all four operations on
list 1, each leaving the database unchanged. -/
theorem membership_guard_witness :
    getListRoute dbGuard 2 1 = Except.error ApiError.forbidden ∧
    addItemRoute dbGuard 2 { bucket_list_id := 1, text := "hi" } =
      (dbGuard, Except.error ApiError.forbidden) ∧
    toggleRoute dbGuard 2 1 = (dbGuard, Except.error ApiError.forbidden) ∧
    counterRoute dbGuard 2 2 (some 1) = (dbGuard, Except.error ApiError.forbidden) :=
  ⟨membership_guard.1 dbGuard 2 1 ⟨1, "Trip", "AAAAAA", 1, 0⟩ rfl rfl,
   membership_guard.2.1 dbGuard 2 { bucket_list_id := 1, text := "hi" }
     ⟨1, "Trip", "AAAAAA", 1, 0⟩ (by decide) (by decide) (Or.inl rfl) rfl rfl,
   membership_guard.2.2.1 dbGuard 2 1 guardCheckItem rfl rfl rfl,
   membership_guard.2.2.2 dbGuard 2 2 guardCounterItem 1 rfl rfl rfl⟩

theorem addItemRoute_text_invalid (db : DB) (u : Nat) (req : AddItemReq)
    (ht : jsTrim req.text = "") :
    addItemRoute db u req = (db, Except.error ApiError.invalidInput) := by
  unfold addItemRoute
  rw [if_pos (Or.inr ht)]

theorem addItemRoute_type_invalid (db : DB) (u : Nat) (req : AddItemReq)
    (h1 : req.itype ≠ "check") (h2 : req.itype ≠ "counter") :
    addItemRoute db u req = (db, Except.error ApiError.invalidInput) := by
  unfold addItemRoute
  by_cases hA : req.bucket_list_id = 0 ∨ jsTrim req.text = ""
  · rw [if_pos hA]
  · rw [if_neg hA, if_pos ⟨h1, h2⟩]

theorem addItemRoute_success (db : DB) (u : Nat) (req : AddItemReq) (bl : BucketList)
    (h0 : req.bucket_list_id ≠ 0) (ht : jsTrim req.text ≠ "")
    (hty : req.itype = "check" ∨ req.itype = "counter")
    (hbl : getBucketListById db req.bucket_list_id = some bl)
    (hm : isMember db req.bucket_list_id u = true)
    (hpar : ∀ p, req.parent_item_id = some p →
      ∃ pi, getItem db p = some pi ∧ pi.bucket_list_id = req.bucket_list_id) :
    addItemRoute db u req = addItemCreate db req ∧
      (addItemCreate db req).2 = Except.ok db.nextItemId ∧
      (addItemCreate db req).1.items.length = db.items.length + 1 := by
  refine ⟨?_, rfl, by simp [addItemCreate, createItem]⟩
  unfold addItemRoute
  have hA : ¬(req.bucket_list_id = 0 ∨ jsTrim req.text = "") := by
    push_neg; exact ⟨h0, ht⟩
  have hB : ¬(req.itype ≠ "check" ∧ req.itype ≠ "counter") := by
    rcases hty with h | h <;> simp [h]
  rw [if_neg hA, if_neg hB, hbl]
  rw [if_neg (by simp [hm])]
  cases hp : req.parent_item_id with
  | none => rfl
  | some p =>
    obtain ⟨pi, hpi, hsame⟩ := hpar p hp
    simp [hpi, hsame]

/-- Claim C5 (amended): `addItem` fails with `InvalidInput` whenever the
item text is empty after trimming or the type is outside {check, counter};
conversely a call with non-empty trimmed text and a valid type on an
existing list, by a member, with a valid (same-list or absent) parent,
succeeds and inserts one item.  (`InvalidInput` is not *exactly* these two
conditions: a missing/falsy `bucket_list_id` and a parent from a different
list also produce it — see the counterexample.) -/
theorem addItem_validation :
    (∀ db u req, jsTrim req.text = "" →
      addItemRoute db u req = (db, Except.error ApiError.invalidInput)) ∧
    (∀ db u req, req.itype ≠ "check" → req.itype ≠ "counter" →
      addItemRoute db u req = (db, Except.error ApiError.invalidInput)) ∧
    (∀ db u req bl, req.bucket_list_id ≠ 0 → jsTrim req.text ≠ "" →
      (req.itype = "check" ∨ req.itype = "counter") →
      getBucketListById db req.bucket_list_id = some bl →
      isMember db req.bucket_list_id u = true →
      (∀ p, req.parent_item_id = some p →
        ∃ pi, getItem db p = some pi ∧ pi.bucket_list_id = req.bucket_list_id) →
      ∃ db', addItemRoute db u req = (db', Except.ok db.nextItemId) ∧
        db'.items.length = db.items.length + 1) := by
  refine ⟨addItemRoute_text_invalid, addItemRoute_type_invalid, ?_⟩
  intro db u req bl h0 ht hty hbl hm hpar
  obtain ⟨heq, hok, hlen⟩ := addItemRoute_success db u req bl h0 ht hty hbl hm hpar
  refine ⟨(addItemCreate db req).1, ?_, hlen⟩
  rw [heq, ← hok]

/-- Two lists owned by member user 1; item 1 lives in list 1. -/
def parentItemL1 : Item :=
  { id := 1, bucket_list_id := 1, text := "p", itype := "check"
    description := none, parent_item_id := none, is_checked := false
    checked_by := none, checked_at := none, counter_value := 0
    counter_target := none, created_at := 0 }

def dbTwoLists : DB :=
  { users := [⟨1, "alice", "h"⟩]
    bucket_lists := [⟨1, "Trip", "AAAAAA", 1, 0⟩, ⟨2, "Food", "BBBBBB", 1, 0⟩]
    members := [⟨1, 1, 0⟩, ⟨1, 2, 0⟩]
    items := [parentItemL1]
    nextUserId := 2, nextListId := 3, nextItemId := 2, time := 1 }

def reqCrossParent : AddItemReq :=
  { bucket_list_id := 2, text := "hi", parent_item_id := some 1 }

/-- Counterexample to C5 as stated: a call with non-empty text and a valid
type still fails with `InvalidInput`, because its parent item belongs to a
different list — so `InvalidInput` is not *exactly* the two stated
conditions. -/
theorem addItem_invalidInput_cex :
    addItemRoute dbTwoLists 1 reqCrossParent =
      (dbTwoLists, Except.error ApiError.invalidInput) ∧
    jsTrim reqCrossParent.text ≠ "" ∧
    (reqCrossParent.itype = "check" ∨ reqCrossParent.itype = "counter") := by decide

/-- Witness for C5: empty text is rejected, an unknown type is rejected, and
a fully valid request by member user 1 on list 1 creates item 2. -/
theorem addItem_validation_witness :
    addItemRoute dbTwoLists 1 { bucket_list_id := 1, text := " " } =
      (dbTwoLists, Except.error ApiError.invalidInput) ∧
    addItemRoute dbTwoLists 1 { bucket_list_id := 1, text := "hi", itype := "note" } =
      (dbTwoLists, Except.error ApiError.invalidInput) ∧
    ∃ db', addItemRoute dbTwoLists 1 { bucket_list_id := 1, text := "hi" } =
        (db', Except.ok dbTwoLists.nextItemId) ∧
      db'.items.length = dbTwoLists.items.length + 1 :=
  ⟨addItem_validation.1 dbTwoLists 1 { bucket_list_id := 1, text := " " } (by decide),
   addItem_validation.2.1 dbTwoLists 1 { bucket_list_id := 1, text := "hi", itype := "note" }
     (by decide) (by decide),
   addItem_validation.2.2 dbTwoLists 1 { bucket_list_id := 1, text := "hi" }
     ⟨1, "Trip", "AAAAAA", 1, 0⟩ (by decide) (by decide) (Or.inl rfl) rfl rfl
     (fun p hp => by cases hp)⟩

/-- Claim C6: when `addItem` carries a `parentItemId`, a missing parent item
yields `NotFound`, and a parent from a different list yields `InvalidInput`,
in both cases without creating anything. -/
theorem addItem_parent_checks :
    (∀ db u req bl p, req.parent_item_id = some p →
      req.bucket_list_id ≠ 0 → jsTrim req.text ≠ "" →
      (req.itype = "check" ∨ req.itype = "counter") →
      getBucketListById db req.bucket_list_id = some bl →
      isMember db req.bucket_list_id u = true →
      getItem db p = none →
      addItemRoute db u req = (db, Except.error ApiError.notFound)) ∧
    (∀ db u req bl p pi, req.parent_item_id = some p →
      req.bucket_list_id ≠ 0 → jsTrim req.text ≠ "" →
      (req.itype = "check" ∨ req.itype = "counter") →
      getBucketListById db req.bucket_list_id = some bl →
      isMember db req.bucket_list_id u = true →
      getItem db p = some pi → pi.bucket_list_id ≠ req.bucket_list_id →
      addItemRoute db u req = (db, Except.error ApiError.invalidInput)) := by
  constructor
  · intro db u req bl p hp h0 ht hty hbl hm hpar
    unfold addItemRoute
    have hA : ¬(req.bucket_list_id = 0 ∨ jsTrim req.text = "") := by
      push_neg; exact ⟨h0, ht⟩
    have hB : ¬(req.itype ≠ "check" ∧ req.itype ≠ "counter") := by
      rcases hty with h | h <;> simp [h]
    rw [if_neg hA, if_neg hB, hbl]
    rw [if_neg (by simp [hm]), hp]
    simp [hpar]
  · intro db u req bl p pi hp h0 ht hty hbl hm hpi hdiff
    unfold addItemRoute
    have hA : ¬(req.bucket_list_id = 0 ∨ jsTrim req.text = "") := by
      push_neg; exact ⟨h0, ht⟩
    have hB : ¬(req.itype ≠ "check" ∧ req.itype ≠ "counter") := by
      rcases hty with h | h <;> simp [h]
    rw [if_neg hA, if_neg hB, hbl]
    rw [if_neg (by simp [hm]), hp]
    simp [hpi, hdiff]

/-- Witness for C6: on the two-list database, a parent id with no item (99)
gives `NotFound`, and a parent from list 1 used for a new list 2 item gives
`InvalidInput`. -/
theorem addItem_parent_checks_witness :
    addItemRoute dbTwoLists 1 { bucket_list_id := 1, text := "hi", parent_item_id := some 99 } =
      (dbTwoLists, Except.error ApiError.notFound) ∧
    addItemRoute dbTwoLists 1 reqCrossParent =
      (dbTwoLists, Except.error ApiError.invalidInput) :=
  ⟨addItem_parent_checks.1 dbTwoLists 1
     { bucket_list_id := 1, text := "hi", parent_item_id := some 99 }
     ⟨1, "Trip", "AAAAAA", 1, 0⟩ 99 rfl (by decide) (by decide) (Or.inl rfl) rfl rfl rfl,
   addItem_parent_checks.2 dbTwoLists 1 reqCrossParent
     ⟨2, "Food", "BBBBBB", 1, 0⟩ 1 parentItemL1 rfl (by decide) (by decide) (Or.inl rfl)
     rfl rfl rfl (by decide)⟩

theorem dropWhile_eq_self_of_not (p : Char → Bool) :
    ∀ l : List Char, (∀ c ∈ l, p c = false) → l.dropWhile p = l
  | [], _ => rfl
  | c :: l, h => by
    rw [List.dropWhile_cons, h c (by simp)]
    simp

theorem jsTrim_eq_self (s : String) (h : ∀ c ∈ s.data, jsWhite c = false) :
    jsTrim s = s := by
  unfold jsTrim
  rw [dropWhile_eq_self_of_not jsWhite s.data h,
    dropWhile_eq_self_of_not jsWhite s.data.reverse
      (fun c hc => h c (List.mem_reverse.mp hc)),
    List.reverse_reverse]

theorem alphabet_upper_lower :
    ∀ c ∈ shareCodeChars, Char.toUpper (Char.toLower c) = c := by decide

theorem alphabet_lower_not_white :
    ∀ c ∈ shareCodeChars, jsWhite (Char.toLower c) = false := by decide

theorem jsToUpper_jsToLower (s : String) (h : ∀ c ∈ s.data, c ∈ shareCodeChars) :
    jsToUpper (jsToLower s) = s := by
  unfold jsToUpper jsToLower
  have hmap : (s.data.map Char.toLower).map Char.toUpper = s.data := by
    rw [List.map_map]
    have : ∀ c ∈ s.data, (Char.toUpper ∘ Char.toLower) c = id c :=
      fun c hc => alphabet_upper_lower c (h c hc)
    rw [List.map_congr_left this, List.map_id]
  simp only [hmap]

theorem addMember_new (db : DB) (l u : Nat) (h : isMember db l u = false) :
    (addMember db l u).members = db.members ++ [⟨u, l, db.time⟩] := by
  unfold addMember
  split
  · next ha =>
    exfalso
    rw [List.any_eq_true] at ha
    obtain ⟨m, hm, hp⟩ := ha
    simp only [Bool.and_eq_true, beq_iff_eq] at hp
    have : isMember db l u = true := (isMember_iff db l u).2 ⟨m, hm, hp.2, hp.1⟩
    rw [this] at h
    cases h
  · rfl

theorem joinRoute_success (db : DB) (u : Nat) (code : String) (bl : BucketList)
    (hne : jsTrim code ≠ "")
    (hlook : getBucketListByCode db (jsToUpper (jsTrim code)) = some bl)
    (hm : isMember db bl.id u = false) :
    joinRoute db u code = (addMember db bl.id u, Except.ok bl.id) := by
  unfold joinRoute
  rw [if_neg hne, hlook]
  simp [hm]

/-- Claim C7: `joinList` trims and uppercases the supplied code before the
lookup — so a lowercase rendering of a stored (uppercase alphanumeric) code
succeeds — fails with `NotFound` when no list carries the code, fails with
`AlreadyMember`/`Conflict` when the membership already exists (hence the
second of two identical joins fails), and otherwise inserts exactly the one
membership row. -/
theorem joinList_semantics :
    (∀ db u code, jsTrim code ≠ "" →
      getBucketListByCode db (jsToUpper (jsTrim code)) = none →
      joinRoute db u code = (db, Except.error ApiError.notFound)) ∧
    (∀ db u code bl, jsTrim code ≠ "" →
      getBucketListByCode db (jsToUpper (jsTrim code)) = some bl →
      isMember db bl.id u = true →
      joinRoute db u code = (db, Except.error ApiError.conflict)) ∧
    (∀ db u code bl, jsTrim code ≠ "" →
      getBucketListByCode db (jsToUpper (jsTrim code)) = some bl →
      isMember db bl.id u = false →
      joinRoute db u code = (addMember db bl.id u, Except.ok bl.id) ∧
      (addMember db bl.id u).members = db.members ++ [⟨u, bl.id, db.time⟩] ∧
      isMember (addMember db bl.id u) bl.id u = true ∧
      joinRoute (addMember db bl.id u) u code =
        (addMember db bl.id u, Except.error ApiError.conflict)) ∧
    (∀ db u bl, getBucketListByCode db bl.share_code = some bl →
      bl.share_code ≠ "" →
      (∀ c ∈ bl.share_code.data, c ∈ shareCodeChars) →
      isMember db bl.id u = false →
      joinRoute db u (jsToLower bl.share_code) = (addMember db bl.id u, Except.ok bl.id)) := by
  refine ⟨?_, ?_, ?_, ?_⟩
  · intro db u code hne hlook
    unfold joinRoute
    rw [if_neg hne, hlook]
  · intro db u code bl hne hlook hm
    unfold joinRoute
    rw [if_neg hne, hlook]
    simp [hm]
  · intro db u code bl hne hlook hm
    refine ⟨joinRoute_success db u code bl hne hlook hm, addMember_new db bl.id u hm,
      isMember_addMember_self db bl.id u, ?_⟩
    unfold joinRoute
    rw [if_neg hne]
    have hlook2 : getBucketListByCode (addMember db bl.id u) (jsToUpper (jsTrim code)) =
        some bl := by
      rw [getBucketListByCode_congr db (addMember db bl.id u)
        (addMember_bucket_lists db bl.id u)]
      exact hlook
    rw [hlook2]
    simp [isMember_addMember_self db bl.id u]
  · intro db u bl hlook hne hchars hm
    have hlowWhite : ∀ c ∈ (jsToLower bl.share_code).data, jsWhite c = false := by
      intro c hc
      simp only [jsToLower, List.mem_map] at hc
      obtain ⟨c0, hc0, rfl⟩ := hc
      exact alphabet_lower_not_white c0 (hchars c0 hc0)
    have htrim : jsTrim (jsToLower bl.share_code) = jsToLower bl.share_code :=
      jsTrim_eq_self _ hlowWhite
    have hne' : jsTrim (jsToLower bl.share_code) ≠ "" := by
      rw [htrim]
      intro hempty
      apply hne
      have hdata : bl.share_code.data.map Char.toLower = ([] : List Char) :=
        congrArg String.data hempty
      have hnil : bl.share_code.data = [] := by
        rcases hd : bl.share_code.data with _ | ⟨c, l⟩
        · rfl
        · rw [hd] at hdata; cases hdata
      cases hcode : bl.share_code with
      | mk d =>
        rw [hcode] at hnil
        simp only at hnil
        rw [hnil]
    refine joinRoute_success db u (jsToLower bl.share_code) bl hne' ?_ hm
    rw [htrim, jsToUpper_jsToLower bl.share_code hchars]
    exact hlook

/-- List with code `AB12CD` owned by member user 1; user 2 is not a member. -/
def dbJoin : DB :=
  { users := [⟨1, "alice", "h"⟩, ⟨2, "bob", "h"⟩]
    bucket_lists := [⟨1, "Trip", "AB12CD", 1, 0⟩]
    members := [⟨1, 1, 0⟩]
    items := []
    nextUserId := 3, nextListId := 2, nextItemId := 1, time := 1 }

/-- Witness for C7: an unknown code is `NotFound`; the owner re-joining is a
conflict; user 2 joining with the lowercase code succeeds, inserts exactly
one membership row, and a repeat join conflicts. -/
theorem joinList_semantics_witness :
    joinRoute dbJoin 2 "ZZZZZZ" = (dbJoin, Except.error ApiError.notFound) ∧
    joinRoute dbJoin 1 "AB12CD" = (dbJoin, Except.error ApiError.conflict) ∧
    (joinRoute dbJoin 2 "AB12CD" = (addMember dbJoin 1 2, Except.ok 1) ∧
      (addMember dbJoin 1 2).members = dbJoin.members ++ [⟨2, 1, dbJoin.time⟩] ∧
      isMember (addMember dbJoin 1 2) 1 2 = true ∧
      joinRoute (addMember dbJoin 1 2) 2 "AB12CD" =
        (addMember dbJoin 1 2, Except.error ApiError.conflict)) ∧
    joinRoute dbJoin 2 (jsToLower "AB12CD") = (addMember dbJoin 1 2, Except.ok 1) :=
  ⟨joinList_semantics.1 dbJoin 2 "ZZZZZZ" (by decide) (by decide),
   joinList_semantics.2.1 dbJoin 1 "AB12CD" ⟨1, "Trip", "AB12CD", 1, 0⟩
     (by decide) (by decide) rfl,
   joinList_semantics.2.2.1 dbJoin 2 "AB12CD" ⟨1, "Trip", "AB12CD", 1, 0⟩
     (by decide) (by decide) rfl,
   joinList_semantics.2.2.2 dbJoin 2 ⟨1, "Trip", "AB12CD", 1, 0⟩
     (by decide) (by decide) (by decide) rfl⟩

/-- The retry loop returns `attempts = 10` exactly when every one of the
codes it checked — the initial one and the nine regenerated while below the
cap — collided with an existing list. -/
theorem codeLoop_ge_iff (db : DB) (rand : Nat → Nat) :
    ∀ n a, a + n = 10 →
      ((codeLoop db rand (a + 1) a (sampledCode rand a)).1 ≥ 10 ↔
        ∀ k, a ≤ k → k < 10 →
          (getBucketListByCode db (sampledCode rand k)).isSome = true) := by
  intro n
  induction n with
  | zero =>
    intro a ha
    have h10 : a = 10 := by omega
    subst h10
    rw [codeLoop, if_neg (fun h => by omega)]
    constructor
    · intro _ k h1 h2
      exact absurd h2 (by omega)
    · intro _
      exact Nat.le_refl 10
  | succ n ih =>
    intro a ha
    have ha10 : a < 10 := by omega
    rw [codeLoop]
    by_cases hc : (getBucketListByCode db (sampledCode rand a)).isSome = true
    · rw [if_pos ⟨hc, ha10⟩]
      rw [ih (a + 1) (by omega)]
      constructor
      · intro h k hk1 hk2
        rcases Nat.eq_or_lt_of_le hk1 with heq | hlt
        · rw [← heq]; exact hc
        · exact h k (by omega) hk2
      · intro h k hk1 hk2
        exact h k (by omega) hk2
    · rw [if_neg (fun h => hc h.1)]
      dsimp only
      constructor
      · intro h
        exact absurd h (by omega)
      · intro h
        exact (hc (h a (Nat.le_refl a) ha10)).elim

/-- When the loop stops under the cap, the code it settled on was checked
and collided with nothing. -/
theorem codeLoop_lt_unique (db : DB) (rand : Nat → Nat) :
    ∀ n a, a + n = 10 →
      (codeLoop db rand (a + 1) a (sampledCode rand a)).1 < 10 →
      getBucketListByCode db (codeLoop db rand (a + 1) a (sampledCode rand a)).2 = none := by
  intro n
  induction n with
  | zero =>
    intro a ha h
    have h10 : a = 10 := by omega
    subst h10
    rw [codeLoop, if_neg (fun hx => by omega)] at h
    dsimp only at h
    exact absurd h (by omega)
  | succ n ih =>
    intro a ha h
    have ha10 : a < 10 := by omega
    rw [codeLoop] at h ⊢
    by_cases hc : (getBucketListByCode db (sampledCode rand a)).isSome = true
    · rw [if_pos ⟨hc, ha10⟩] at h ⊢
      exact ih (a + 1) (by omega) h
    · rw [if_neg (fun hx => hc hx.1)] at h ⊢
      dsimp only
      rcases h' : getBucketListByCode db (sampledCode rand a) with _ | bl
      · rfl
      · exact absurd (by rw [h']; rfl) hc

theorem createListRoute_exhaust_iff (db : DB) (u : Nat) (name : String) (rand : Nat → Nat)
    (hname : jsTrim name ≠ "") :
    (createListRoute db u name rand).2 = Except.error ApiError.codeGenerationExhausted ↔
      ∀ k, k < 10 → (getBucketListByCode db (sampledCode rand k)).isSome = true := by
  unfold createListRoute
  rw [if_neg hname]
  dsimp only
  by_cases hge : (codeLoop db rand 1 0 (sampledCode rand 0)).1 ≥ 10
  · rw [if_pos hge]
    constructor
    · intro _ k hk
      exact (codeLoop_ge_iff db rand 10 0 rfl).1 hge k (Nat.zero_le k) hk
    · intro _
      rfl
  · rw [if_neg hge]
    constructor
    · intro h
      cases h
    · intro h
      exact absurd ((codeLoop_ge_iff db rand 10 0 rfl).2 (fun k _ hk => h k hk)) hge

theorem createListRoute_ok_iff (db : DB) (u : Nat) (name : String) (rand : Nat → Nat)
    (hname : jsTrim name ≠ "") :
    (∃ db' listId, createListRoute db u name rand = (db', Except.ok listId)) ↔
      ¬ ∀ k, k < 10 → (getBucketListByCode db (sampledCode rand k)).isSome = true := by
  unfold createListRoute
  rw [if_neg hname]
  dsimp only
  by_cases hge : (codeLoop db rand 1 0 (sampledCode rand 0)).1 ≥ 10
  · rw [if_pos hge]
    constructor
    · rintro ⟨db', listId, h⟩
      simp at h
    · intro h
      exact absurd
        (fun k hk => (codeLoop_ge_iff db rand 10 0 rfl).1 hge k (Nat.zero_le k) hk) h
  · rw [if_neg hge]
    constructor
    · intro _ hall
      exact absurd ((codeLoop_ge_iff db rand 10 0 rfl).2 (fun k _ hk => hall k hk)) hge
    · intro _
      exact ⟨_, _, rfl⟩

theorem createListRoute_ok_shape (db : DB) (u : Nat) (name : String) (rand : Nat → Nat)
    (db' : DB) (listId : Nat)
    (h : createListRoute db u name rand = (db', Except.ok listId)) :
    ∃ code, getBucketListByCode db code = none ∧
      db'.bucket_lists = db.bucket_lists ++
        [⟨db.nextListId, jsTrim name, code, u, db.time⟩] := by
  unfold createListRoute at h
  split at h
  · simp at h
  · dsimp only at h
    split at h
    · simp at h
    · next hge =>
      simp only [Prod.mk.injEq, Except.ok.injEq] at h
      obtain ⟨hdb, hlid⟩ := h
      refine ⟨(codeLoop db rand 1 0 (sampledCode rand 0)).2, ?_, ?_⟩
      · exact codeLoop_lt_unique db rand 10 0 rfl (Nat.lt_of_not_le hge)
      · rw [← hdb]
        unfold createBucketList
        dsimp only
        rw [addMember_bucket_lists]

/-- Facts about `charAt` on the 36-character alphabet. -/
theorem jsCharAt_alphabet :
    ∀ i, i < 36 → (jsCharAt shareCodeChars i).length = 1 ∧
      ∀ c ∈ jsCharAt shareCodeChars i, c ∈ shareCodeChars := by decide

theorem generateShareCode_shape (rand : Nat → Nat) (h : ∀ i, rand i < 36) :
    (generateShareCode rand).data.length = 6 ∧
      ∀ c ∈ (generateShareCode rand).data, c ∈ shareCodeChars := by
  have hlen : ∀ i, (jsCharAt shareCodeChars (rand i)).length = 1 :=
    fun i => (jsCharAt_alphabet (rand i) (h i)).1
  have hmem : ∀ i, ∀ c ∈ jsCharAt shareCodeChars (rand i), c ∈ shareCodeChars :=
    fun i => (jsCharAt_alphabet (rand i) (h i)).2
  constructor
  · show (((List.range 6).map fun i => jsCharAt shareCodeChars (rand i)).flatten).length = 6
    rw [show List.range 6 = [0, 1, 2, 3, 4, 5] from rfl]
    simp [hlen]
  · intro c hc
    have hc' : c ∈ ((List.range 6).map fun i => jsCharAt shareCodeChars (rand i)).flatten := hc
    rw [List.mem_flatten] at hc'
    obtain ⟨l, hl, hcl⟩ := hc'
    rw [List.mem_map] at hl
    obtain ⟨i, _, rfl⟩ := hl
    exact hmem i c hcl

/-- Claim C8: share-code generation samples 6-character codes over
`[A-Z0-9]`, retries on collision, errors with the code-generation-exhausted
server error exactly when the first ten sampled codes all collide with
existing lists (a hard cap, not an endless loop), creates the list exactly
when the budget is not exhausted, and the created list carries a code that
collided with nothing. -/
theorem share_code_generation :
    (∀ rand : Nat → Nat, (∀ i, rand i < 36) →
      (generateShareCode rand).data.length = 6 ∧
        ∀ c ∈ (generateShareCode rand).data, c ∈ shareCodeChars) ∧
    (∀ db u name rand, jsTrim name ≠ "" →
      ((createListRoute db u name rand).2 = Except.error ApiError.codeGenerationExhausted ↔
        ∀ k, k < 10 → (getBucketListByCode db (sampledCode rand k)).isSome = true)) ∧
    (∀ db u name rand, jsTrim name ≠ "" →
      ((∃ db' listId, createListRoute db u name rand = (db', Except.ok listId)) ↔
        ¬ ∀ k, k < 10 → (getBucketListByCode db (sampledCode rand k)).isSome = true)) ∧
    (∀ db u name rand db' listId,
      createListRoute db u name rand = (db', Except.ok listId) →
      ∃ code, getBucketListByCode db code = none ∧
        db'.bucket_lists = db.bucket_lists ++
          [⟨db.nextListId, jsTrim name, code, u, db.time⟩]) :=
  ⟨generateShareCode_shape,
   createListRoute_exhaust_iff,
   createListRoute_ok_iff,
   createListRoute_ok_shape⟩

/-- Witness for C8: with a random stream that always samples index 0 the
code is `AAAAAA`; on the fresh database the first attempt is unique, both
iff characterisations apply, and the created list's code collided with
nothing. -/
theorem share_code_generation_witness :
    ((generateShareCode (fun _ => 0)).data.length = 6 ∧
      ∀ c ∈ (generateShareCode (fun _ => 0)).data, c ∈ shareCodeChars) ∧
    ((createListRoute DB.init 1 "Trip" (fun _ => 0)).2 =
        Except.error ApiError.codeGenerationExhausted ↔
      ∀ k, k < 10 →
        (getBucketListByCode DB.init (sampledCode (fun _ => 0) k)).isSome = true) ∧
    ((∃ db' listId,
        createListRoute DB.init 1 "Trip" (fun _ => 0) = (db', Except.ok listId)) ↔
      ¬ ∀ k, k < 10 →
        (getBucketListByCode DB.init (sampledCode (fun _ => 0) k)).isSome = true) ∧
    (∃ code, getBucketListByCode DB.init code = none ∧
      (createListRoute DB.init 1 "Trip" (fun _ => 0)).1.bucket_lists =
        DB.init.bucket_lists ++
          [⟨DB.init.nextListId, jsTrim "Trip", code, 1, DB.init.time⟩]) := by
  have h2 : (createListRoute DB.init 1 "Trip" (fun _ => 0)).2 = Except.ok 1 := by
    rw [createListRoute, codeLoop]
    simp [sampledCode, generateShareCode, jsCharAt, shareCodeChars, getBucketListByCode,
      DB.init, createBucketList, jsTrim, jsWhite]
  exact ⟨share_code_generation.1 (fun _ => 0) (fun i => by show (0 : Nat) < 36; decide),
    share_code_generation.2.1 DB.init 1 "Trip" (fun _ => 0) (by decide),
    share_code_generation.2.2.1 DB.init 1 "Trip" (fun _ => 0) (by decide),
    share_code_generation.2.2.2 DB.init 1 "Trip" (fun _ => 0)
      (createListRoute DB.init 1 "Trip" (fun _ => 0)).1 1 (Prod.ext rfl h2)⟩

/-- Each pair ordered by the SQL key satisfies the three properties the
specification states for `getItems`. -/
theorem itemLe_claim (a b : Item) (hab : itemLe a b) :
    (b.parent_item_id = none → a.parent_item_id = none) ∧
    (∀ pa pb, a.parent_item_id = some pa → b.parent_item_id = some pb → pa ≤ pb) ∧
    (a.parent_item_id = b.parent_item_id → a.created_at ≤ b.created_at) := by
  refine ⟨?_, ?_, ?_⟩
  · intro hbnone
    by_cases ha : a.parent_item_id = none
    · exact ha
    · unfold itemLe itemKey at hab
      simp [ha, hbnone] at hab
  · intro pa pb hpa hpb
    unfold itemLe itemKey at hab
    simp [hpa, hpb] at hab
    omega
  · intro hpar
    unfold itemLe itemKey at hab
    rcases ha : a.parent_item_id with _ | pa
    · rw [ha] at hpar
      simp [ha, ← hpar] at hab
      omega
    · rw [ha] at hpar
      simp [ha, ← hpar] at hab
      omega

/-- Claim C9: `getItems` returns exactly the list's items, ordered with all
root items before all child items, children ascending by parent id (hence
grouped by parent), and creation time ascending within equal-parent groups. -/
theorem getItems_ordering (db : DB) (listId : Nat) :
    List.Perm (getItems db listId)
      (db.items.filter (fun i => i.bucket_list_id == listId)) ∧
    List.Pairwise (fun a b =>
      (b.parent_item_id = none → a.parent_item_id = none) ∧
      (∀ pa pb, a.parent_item_id = some pa → b.parent_item_id = some pb → pa ≤ pb) ∧
      (a.parent_item_id = b.parent_item_id → a.created_at ≤ b.created_at))
      (getItems db listId) := by
  constructor
  · exact List.perm_insertionSort itemLe _
  · have hs := List.sorted_insertionSort itemLe
      (db.items.filter (fun i => i.bucket_list_id == listId))
    exact hs.imp (fun hab => itemLe_claim _ _ hab)

/-- Witness for C9 at a concrete database. -/
theorem getItems_ordering_witness :
    List.Perm (getItems dbGuard 1)
      (dbGuard.items.filter (fun i => i.bucket_list_id == 1)) ∧
    List.Pairwise (fun a b =>
      (b.parent_item_id = none → a.parent_item_id = none) ∧
      (∀ pa pb, a.parent_item_id = some pa → b.parent_item_id = some pb → pa ≤ pb) ∧
      (a.parent_item_id = b.parent_item_id → a.created_at ≤ b.created_at))
      (getItems dbGuard 1) :=
  getItems_ordering dbGuard 1

end BucketApp
